import Mathlib

/-!
Verification of the ClamAV protocol client (internal/clamav) of
clamav-api-go, as a shallow embedding. Bytes are modelled as natural
numbers below 256; Go byte slices become lists of naturals. External
effects (the TCP connection, the content reader, the child process) are
modelled as oracles: a connection supplies the reply bytes it will serve
and the failure, if any, of each write step, and the embedding reproduces
the control flow of the Go code over these oracles.
-/

/-- Bytes of an ASCII string literal, as Go sees a string converted to a
byte slice. All protocol literals in the source are ASCII. -/
def strBytes (s : String) : List Nat := s.toList.map Char.toNat

/-- ASCII lower-casing of a single byte, the byte-level content of
Go bytes.EqualFold on the ASCII replies this protocol uses. -/
def asciiLowerByte (b : Nat) : Nat := if 65 ≤ b ∧ b ≤ 90 then b + 32 else b

/-- Embedding of bytes.EqualFold restricted to ASCII: equality up to
ASCII letter case. -/
def bytesEqualFold (a b : List Nat) : Bool :=
  a.map asciiLowerByte = b.map asciiLowerByte

/-- Go error values reachable in internal/clamav: the five sentinel errors
of errors.go, raw I/O errors from the transport or the content reader,
the local size-validation error of InStream, fmt.Errorf wrapping with
percent-w of a non-nil error, fmt.Errorf applied with percent-w to a nil
error (which produces a non-nil error that unwraps to nothing), and the
Reload mismatch error that carries the expected and actual reply text. -/
inductive GoErr where
  | errUnknownCommand
  | errUnknownResponse
  | errUnexpectedResponse
  | errScanFileSizeLimitExceeded
  | errVirusFound
  | ioError (msg : String)
  | invalidSize (size : Int)
  | wrap (ctx : String) (e : GoErr)
  | wrapNil (ctx : String)
  | wrapExpected (e : GoErr) (expected actual : List Nat)
deriving DecidableEq

/-- Embedding of errors.Is: an error matches a target when it equals it or
when some error in its unwrap chain does. A wrapNil error unwraps to
nothing, as fmt.Errorf with a nil percent-w operand yields an error
without an Unwrap method. -/
def errIs : GoErr → GoErr → Bool
  | .wrap c e, t => decide (GoErr.wrap c e = t) || errIs e t
  | .wrapExpected e x a, t => decide (GoErr.wrapExpected e x a = t) || errIs e t
  | e, t => decide (e = t)

/-- Command byte sequences from commands.go. CmdPing is zPING followed by
a null byte. -/
def CmdPing : List Nat := strBytes "zPING" ++ [0]

/-- Command zVERSION, null-terminated. -/
def CmdVersion : List Nat := strBytes "zVERSION" ++ [0]

/-- Command zRELOAD, null-terminated. -/
def CmdReload : List Nat := strBytes "zRELOAD" ++ [0]

/-- Command zINSTREAM, null-terminated. -/
def CmdInstream : List Nat := strBytes "zINSTREAM" ++ [0]

/-- Command zSTATS, null-terminated. -/
def CmdStats : List Nat := strBytes "zSTATS" ++ [0]

/-- Command nVERSIONCOMMANDS, newline-terminated, as in commands.go. -/
def CmdVersionCommands : List Nat := strBytes "nVERSIONCOMMANDS\n"

/-- Command zSHUTDOWN, null-terminated. -/
def CmdShutdown : List Nat := strBytes "zSHUTDOWN" ++ [0]

/-- Expected reply to PING, from responses. -/
def RespPing : List Nat := strBytes "PONG"

/-- Expected reply to RELOAD. -/
def RespReload : List Nat := strBytes "RELOADING"

/-- Expected reply for a clean stream scan. -/
def RespScan : List Nat := strBytes "stream: OK"

/-- Literal unknown-command reply. -/
def RespErrUnknownCommand : List Nat := strBytes "UNKNOWN COMMAND"

/-- Literal size-limit-exceeded reply. -/
def RespErrScanFileSizeLimitExceeded : List Nat :=
  strBytes "INSTREAM size limit exceeded. ERROR"

/-- The read side of a connection as the client observes it: the bytes the
daemon serves before the stream ends, and, when the stream does not end
with a clean EOF, the read error reported after those bytes. -/
structure ByteStream where
  bytes : List Nat
  readErr : Option String
deriving DecidableEq

/-- Reading until a null byte, inclusive, as bufio ReadBytes does: returns
the bytes consumed (including the null byte when found) and whether the
delimiter was found before the stream ended. -/
def readUntilNull : List Nat → List Nat × Bool
  | [] => ([], false)
  | b :: rest =>
    if b = 0 then ([0], true)
    else
      let r := readUntilNull rest
      (b :: r.1, r.2)

/-- Embedding of bytes.TrimSuffix with a one-byte null suffix: removes one
trailing null byte when present. -/
def trimNull (l : List Nat) : List Nat :=
  if l.getLast? = some 0 then l.dropLast else l

/-- Embedding of Client.readResponse: read until a null byte; a clean EOF
before the delimiter is not an error, any other read failure is wrapped;
the trailing null byte is trimmed from the result. -/
def readResponse (s : ByteStream) : Except GoErr (List Nat) :=
  let r := readUntilNull s.bytes
  if r.2 then .ok (trimNull r.1)
  else
    match s.readErr with
    | some e => .error (.wrap "error while reading response" (.ioError e))
    | none => .ok (trimNull r.1)

/-- Embedding of Client.parseResponse: case-insensitive match of the
size-limit message, then the case-sensitive stream-scan prefix with the
FOUND suffix, then the case-sensitive unknown-command message. -/
def parseResponse (msg : List Nat) : Option GoErr :=
  if bytesEqualFold msg RespErrScanFileSizeLimitExceeded then
    some .errScanFileSizeLimitExceeded
  else if (strBytes "stream: ").isPrefixOf msg && (strBytes "FOUND").isSuffixOf msg then
    some .errVirusFound
  else if msg = RespErrUnknownCommand then
    some .errUnknownCommand
  else
    none

/-- A connection oracle for the fixed-response commands: whether flushing
the command bytes fails, and the read side of the connection. -/
structure CmdConn where
  writeErr : Option String
  reply : ByteStream
deriving DecidableEq

/-- Embedding of Client.SendCommand: write and flush the command bytes,
then read the reply. Returns the result and the bytes that reached the
transport. -/
def SendCommand (cmd : List Nat) (cb : CmdConn) :
    Except GoErr (List Nat) × List Nat :=
  match cb.writeErr with
  | some e => (.error (.wrap "error while flushing command" (.ioError e)), [])
  | none =>
    match readResponse cb.reply with
    | .error e => (.error e, cmd)
    | .ok resp => (.ok resp, cmd)

/-- Embedding of Client.Ping: send zPING, classify the reply, return the
raw reply when classification yields no error. -/
def Ping (cb : CmdConn) : Except GoErr (List Nat) :=
  match (SendCommand CmdPing cb).1 with
  | .error e => .error (.wrap "error while sending command" e)
  | .ok resp =>
    match parseResponse resp with
    | some e => .error (.wrap "error from clamav" e)
    | none => .ok resp

/-- Embedding of Client.Version. -/
def Version (cb : CmdConn) : Except GoErr (List Nat) :=
  match (SendCommand CmdVersion cb).1 with
  | .error e => .error (.wrap "error while sending command" e)
  | .ok resp =>
    match parseResponse resp with
    | some e => .error (.wrap "error from clamav" e)
    | none => .ok resp

/-- Embedding of Client.Stats. -/
def Stats (cb : CmdConn) : Except GoErr (List Nat) :=
  match (SendCommand CmdStats cb).1 with
  | .error e => .error (.wrap "error while sending command" e)
  | .ok resp =>
    match parseResponse resp with
    | some e => .error (.wrap "error from clamav" e)
    | none => .ok resp

/-- Embedding of Client.VersionCommands: same exchange shape as Ping, with
the newline-terminated command constant. -/
def VersionCommands (cb : CmdConn) : Except GoErr (List Nat) :=
  match (SendCommand CmdVersionCommands cb).1 with
  | .error e => .error (.wrap "error while sending command" e)
  | .ok resp =>
    match parseResponse resp with
    | some e => .error (.wrap "error from clamav" e)
    | none => .ok resp

/-- Embedding of Client.Reload: send zRELOAD, classify, then require the
reply to equal RELOADING exactly; on a mismatch the error wraps the
unexpected-response sentinel and carries the expected and actual text. -/
def Reload (cb : CmdConn) : Option GoErr :=
  match (SendCommand CmdReload cb).1 with
  | .error e => some (.wrap "error while sending command" e)
  | .ok resp =>
    match parseResponse resp with
    | some e => some (.wrap "error from clamav" e)
    | none =>
      if resp = RespReload then none
      else some (.wrapExpected .errUnexpectedResponse RespReload resp)

/-- Embedding of Client.Shutdown: send zSHUTDOWN and discard the reply;
only a transport failure is surfaced, the reply is never classified. -/
def Shutdown (cb : CmdConn) : Option GoErr :=
  match (SendCommand CmdShutdown cb).1 with
  | .error e => some (.wrap "error while sending command" e)
  | .ok _ => none

/-- The four bytes of a big-endian unsigned 32-bit length field. -/
def be32 (n : Nat) : List Nat :=
  [n / 16777216 % 256, n / 65536 % 256, n / 256 % 256, n % 256]

/-- Connection oracle for InStream: the failure, if any, of each write
step (command flush, length-field flush, content copy, terminator flush)
and the read side of the connection. The copy failure stands for either a
content-reader error or a connection write error, as both surface as the
single error value of the copy in the source. -/
structure ConnBehavior where
  cmdErr : Option String
  sizeErr : Option String
  copyErr : Option String
  termErr : Option String
  reply : ByteStream
deriving DecidableEq

/-- Embedding of Client.InStream. Returns the (reply, error) pair in the
first component and the bytes flushed to the transport in the second.
Control flow follows the source: the command is written and flushed, then
the declared size is validated; a valid size is written as a 4-byte
big-endian field; the content is copied; on a copy failure the client
tries to read a reply the daemon may already have sent, surfaces its
classification when there is one, and otherwise returns the reply
together with a wrap of the err variable, which the preceding
parseResponse call has reset to nil; on a successful copy a 4-byte zero
terminator is sent and the reply is read and classified, VirusFound
keeping the reply alongside the error. -/
def InStream (content : List Nat) (size : Int) (cb : ConnBehavior) :
    (Option (List Nat) × Option GoErr) × List Nat :=
  match cb.cmdErr with
  | some e =>
    ((none, some (.wrap "error while flushing command" (.ioError e))), [])
  | none =>
    if size > 0 ∧ size ≤ 4294967295 then
      match cb.sizeErr with
      | some e =>
        ((none, some (.wrap "error while flushing data length" (.ioError e))),
          CmdInstream)
      | none =>
        match cb.copyErr with
        | some copyE =>
          match readResponse cb.reply with
          | .error _ =>
            ((none, some (.wrap "error while streaming content" (.ioError copyE))),
              CmdInstream ++ be32 size.toNat)
          | .ok resp =>
            match parseResponse resp with
            | some perr =>
              if errIs perr .errScanFileSizeLimitExceeded then
                ((none, some perr), CmdInstream ++ be32 size.toNat)
              else
                ((none, some (.wrap "error from clamav" perr)),
                  CmdInstream ++ be32 size.toNat)
            | none =>
              ((some resp, some (.wrapNil "error while streaming content")),
                CmdInstream ++ be32 size.toNat)
        | none =>
          match cb.termErr with
          | some e =>
            ((none,
              some (.wrap "error while flushing end of transfer signal" (.ioError e))),
              CmdInstream ++ be32 size.toNat)
          | none =>
            match readResponse cb.reply with
            | .error re =>
              ((none, some re),
                CmdInstream ++ be32 size.toNat ++ content ++ [0, 0, 0, 0])
            | .ok resp =>
              match parseResponse resp with
              | some perr =>
                if errIs perr .errVirusFound then
                  ((some resp, some perr),
                    CmdInstream ++ be32 size.toNat ++ content ++ [0, 0, 0, 0])
                else
                  ((none, some (.wrap "error from clamav" perr)),
                    CmdInstream ++ be32 size.toNat ++ content ++ [0, 0, 0, 0])
              | none =>
                ((some resp, none),
                  CmdInstream ++ be32 size.toNat ++ content ++ [0, 0, 0, 0])
    else
      ((none, some (.invalidSize size)), CmdInstream)

/-- Embedding of strings.Contains on byte lists: whether the needle occurs
as a contiguous sublist of the hay. -/
def subListOf (needle : List Nat) : List Nat → Bool
  | [] => needle.isEmpty
  | b :: rest => needle.isPrefixOf (b :: rest) || subListOf needle rest

/-- Embedding of Client.FreshClam over an oracle for the child process:
its combined output, its run error if any, and the context error if the
context was cancelled. On a run error with a cancelled context the output
is discarded; otherwise the output is inspected for the success phrases
and returned in every case. -/
def FreshClam (output : List Nat) (runErr : Option String) (ctxErr : Option String) :
    Option (List Nat) × Option GoErr :=
  match runErr with
  | none => (some output, none)
  | some e =>
    match ctxErr with
    | some ce =>
      (none, some (.wrap "freshclam command cancelled" (.ioError ce)))
    | none =>
      if subListOf (strBytes "Database updated") output
          || subListOf (strBytes "up to date") output
          || subListOf (strBytes "Your ClamAV installation is OUTDATED") output then
        (some output, none)
      else
        (some output, some (.wrap "freshclam command failed" (.ioError e)))

/-- Embedding of strings.TrimRight: removes trailing bytes that belong to
the cutset, one at a time. -/
def trimRightCut (cutset : List Nat) (s : List Nat) : List Nat :=
  (s.reverse.dropWhile (fun b => cutset.contains b)).reverse

/-- Embedding of strings.TrimLeft: removes leading bytes that belong to
the cutset. -/
def trimLeftCut (cutset : List Nat) (s : List Nat) : List Nat :=
  s.dropWhile (fun b => cutset.contains b)

/-- Embedding of Handler.parseSignature from the controllers package:
TrimLeft and TrimRight with the cutsets written in the source. -/
def parseSignature (msg : List Nat) : List Nat :=
  trimLeftCut (strBytes "stream: ") (trimRightCut (strBytes " FOUND") msg)

deriving instance DecidableEq for Except

/-- Spec-modelled reply reader for comparison in refinement claims: the
spec words say the reply is read until the terminator byte of the command
in flight and the terminator is trimmed; on a stream this yields the
bytes strictly before the first occurrence of the terminator. -/
def specReadReply (term : Nat) (bytes : List Nat) : List Nat :=
  bytes.takeWhile (fun b => b != term)

lemma readUntilNull_of_mem (bytes : List Nat) (h : 0 ∈ bytes) :
    readUntilNull bytes = (bytes.takeWhile (fun b => b != 0) ++ [0], true) := by
  induction bytes with
  | nil => cases h
  | cons b rest ih =>
    by_cases hb : b = 0
    · subst hb
      simp [readUntilNull]
    · have hmem : 0 ∈ rest := by
        cases h with
        | head => exact absurd rfl hb
        | tail _ hm => exact hm
      simp [readUntilNull, hb, ih hmem]

lemma readUntilNull_of_not_mem (bytes : List Nat) (h : 0 ∉ bytes) :
    readUntilNull bytes = (bytes, false) := by
  induction bytes with
  | nil => simp [readUntilNull]
  | cons b rest ih =>
    have hb : ¬b = 0 := fun he => h (he ▸ List.mem_cons_self b rest)
    have hmem : 0 ∉ rest := fun hm => h (List.mem_cons_of_mem b hm)
    simp [readUntilNull, hb, ih hmem]

lemma trimNull_append_null (l : List Nat) : trimNull (l ++ [0]) = l := by
  simp [trimNull]

lemma trimNull_of_not_mem (l : List Nat) (h : 0 ∉ l) : trimNull l = l := by
  unfold trimNull
  split
  · next hl =>
    obtain ⟨hne, hx⟩ := List.mem_getLast?_eq_getLast (Option.mem_def.mpr hl)
    exact absurd (hx ▸ List.getLast_mem hne) h
  · rfl

lemma readResponse_of_mem (bytes : List Nat) (re : Option String) (h : 0 ∈ bytes) :
    readResponse ⟨bytes, re⟩ = .ok (bytes.takeWhile (fun b => b != 0)) := by
  simp [readResponse, readUntilNull_of_mem bytes h, trimNull_append_null]

lemma readResponse_eof (bytes : List Nat) (h : 0 ∉ bytes) :
    readResponse ⟨bytes, none⟩ = .ok bytes := by
  simp [readResponse, readUntilNull_of_not_mem bytes h, trimNull_of_not_mem bytes h]

lemma parseResponse_cases (msg : List Nat) (perr : GoErr)
    (h : parseResponse msg = some perr) :
    perr = .errScanFileSizeLimitExceeded ∨ perr = .errVirusFound
      ∨ perr = .errUnknownCommand := by
  unfold parseResponse at h
  split at h
  · exact Or.inl (Option.some.inj h).symm
  · split at h
    · exact Or.inr (Or.inl (Option.some.inj h).symm)
    · split at h
      · exact Or.inr (Or.inr (Option.some.inj h).symm)
      · cases h

lemma errIs_size_size :
    errIs .errScanFileSizeLimitExceeded .errScanFileSizeLimitExceeded = true := rfl

lemma errIs_virus_size :
    errIs .errVirusFound .errScanFileSizeLimitExceeded = false := rfl

lemma errIs_cmd_size :
    errIs .errUnknownCommand .errScanFileSizeLimitExceeded = false := rfl

lemma errIs_virus_virus : errIs .errVirusFound .errVirusFound = true := rfl

lemma errIs_size_virus :
    errIs .errScanFileSizeLimitExceeded .errVirusFound = false := rfl

lemma errIs_cmd_virus : errIs .errUnknownCommand .errVirusFound = false := rfl

/-- C4: reply classification is a pure function of the trimmed reply: it
yields SizeLimitExceeded on a case-insensitive match of the size-limit
message, VirusFound when the reply has the case-sensitive stream-scan
prefix and the case-sensitive FOUND suffix, UnknownCommand on a
case-sensitive exact match of the unknown-command message, and no error
otherwise, in that order; the case-sensitivity asymmetry is preserved. -/
theorem parseResponse_classification :
    (∀ msg : List Nat,
        bytesEqualFold msg RespErrScanFileSizeLimitExceeded = true →
        parseResponse msg = some .errScanFileSizeLimitExceeded)
    ∧ (∀ msg : List Nat,
        bytesEqualFold msg RespErrScanFileSizeLimitExceeded = false →
        ((strBytes "stream: ").isPrefixOf msg
          && (strBytes "FOUND").isSuffixOf msg) = true →
        parseResponse msg = some .errVirusFound)
    ∧ (∀ msg : List Nat,
        bytesEqualFold msg RespErrScanFileSizeLimitExceeded = false →
        ((strBytes "stream: ").isPrefixOf msg
          && (strBytes "FOUND").isSuffixOf msg) = false →
        msg = RespErrUnknownCommand →
        parseResponse msg = some .errUnknownCommand)
    ∧ (∀ msg : List Nat,
        bytesEqualFold msg RespErrScanFileSizeLimitExceeded = false →
        ((strBytes "stream: ").isPrefixOf msg
          && (strBytes "FOUND").isSuffixOf msg) = false →
        msg ≠ RespErrUnknownCommand →
        parseResponse msg = none)
    ∧ parseResponse (strBytes "Instream Size Limit Exceeded. Error") =
        some .errScanFileSizeLimitExceeded
    ∧ parseResponse (strBytes "unknown command") = none
    ∧ parseResponse (strBytes "STREAM: sig FOUND") = none
    ∧ parseResponse (strBytes "stream: sig found") = none := by
  refine ⟨?_, ?_, ?_, ?_, by decide, by decide, by decide, by decide⟩
  · intro msg h1
    simp [parseResponse, h1]
  · intro msg h1 h2
    simp [parseResponse, h1, h2]
  · intro msg h1 h2 h3
    subst h3
    decide
  · intro msg h1 h2 h3
    simp [parseResponse, h1, h2, h3]

/-- C4 witness: the literal size-limit message classifies to the
size-limit error. -/
theorem parseResponse_classification_witness :
    parseResponse RespErrScanFileSizeLimitExceeded =
      some .errScanFileSizeLimitExceeded :=
  parseResponse_classification.1 RespErrScanFileSizeLimitExceeded (by decide)

/-- C7: Reload succeeds exactly when the trimmed reply equals RELOADING;
a differing reply that classification leaves unflagged fails with an
unexpected-response error carrying both the expected and the actual
text. -/
theorem reload_ack (s : ByteStream) (resp : List Nat)
    (h : readResponse s = .ok resp) :
    (Reload ⟨none, s⟩ = none ↔ resp = RespReload)
    ∧ (parseResponse resp = none → resp ≠ RespReload →
        Reload ⟨none, s⟩ =
          some (.wrapExpected .errUnexpectedResponse RespReload resp)) := by
  have hR : Reload ⟨none, s⟩ =
      (match parseResponse resp with
        | some e => some (.wrap "error from clamav" e)
        | none =>
          if resp = RespReload then none
          else some (.wrapExpected .errUnexpectedResponse RespReload resp)) := by
    simp [Reload, SendCommand, h]
  cases hp : parseResponse resp with
  | some e =>
    have hne : resp ≠ RespReload := by
      intro he
      subst he
      have hnone : parseResponse RespReload = none := by decide
      exact Option.noConfusion (hnone.symm.trans hp)
    refine ⟨?_, fun hc _ => absurd hc (by simp)⟩
    rw [hR, hp]
    simp [hne]
  | none =>
    rw [hR, hp]
    by_cases he : resp = RespReload
    · simp [he]
    · simp [he]

/-- C7 witness: a RELOADING reply terminated by a null byte makes Reload
succeed. -/
theorem reload_ack_witness :
    Reload ⟨none, ⟨RespReload ++ [0], none⟩⟩ = none :=
  (reload_ack ⟨RespReload ++ [0], none⟩ RespReload (by decide)).1.mpr rfl

/-- C10: end-of-stream before any null terminator yields the bytes read so
far as a successful response with no error; a stream closed immediately
yields an empty response and no error. -/
theorem readResponse_eof_no_error (bytes : List Nat) (h : 0 ∉ bytes) :
    readResponse ⟨bytes, none⟩ = .ok bytes
    ∧ readResponse ⟨[], none⟩ = .ok ([] : List Nat) :=
  ⟨readResponse_eof bytes h, by decide⟩

/-- C10 witness: a PONG reply with the connection closed before any null
byte is returned as-is with no error. -/
theorem readResponse_eof_no_error_witness :
    readResponse ⟨strBytes "PONG", none⟩ = .ok (strBytes "PONG") :=
  (readResponse_eof_no_error (strBytes "PONG") (by decide)).1

/-- C8: a reply built from the stream-scan prefix, a signature and the
FOUND suffix always classifies to VirusFound, but the extraction in the
controllers package trims character sets rather than a fixed prefix and
suffix: for the signature eicar it returns icar, not eicar, while the
specific example signature Win.Test.EICAR_HDB-1 happens to survive. -/
theorem parseSignature_cutset_bug :
    parseResponse (strBytes "stream: eicar FOUND") = some .errVirusFound
    ∧ parseSignature (strBytes "stream: eicar FOUND") = strBytes "icar"
    ∧ strBytes "icar" ≠ strBytes "eicar"
    ∧ parseSignature (strBytes "stream: Win.Test.EICAR_HDB-1 FOUND") =
        strBytes "Win.Test.EICAR_HDB-1"
    ∧ parseResponse (strBytes "stream: Win.Test.EICAR_HDB-1 FOUND") =
        some .errVirusFound :=
  ⟨by decide, by decide, by decide, by decide, by decide⟩

/-- C1 counterexample: with a declared size of 0 the call fails with the
local validation error, but the INSTREAM start command has already been
written and flushed to the transport, so the bytes sent are not zero. -/
theorem instream_size_zero_sends_command :
    InStream [] 0 ⟨none, none, none, none, ⟨[], none⟩⟩ =
      ((none, some (.invalidSize 0)), CmdInstream)
    ∧ CmdInstream ≠ ([] : List Nat) :=
  ⟨by decide, by decide⟩

/-- C1 (amended): for every content reader and declared size that is zero,
negative or above 4294967295, InStream fails with the local validation
error before the 4-byte length field or any content byte is written; at
that point exactly the INSTREAM start command has reached the
transport. -/
theorem instream_invalid_size (content : List Nat) (size : Int)
    (cb : ConnBehavior) (hc : cb.cmdErr = none)
    (hsz : size ≤ 0 ∨ 4294967295 < size) :
    InStream content size cb = ((none, some (.invalidSize size)), CmdInstream) := by
  have hneg : ¬(size > 0 ∧ size ≤ 4294967295) := by omega
  simp [InStream, hc, hneg]

/-- C1 witness: a size one above the unsigned 32-bit bound fails with the
validation error, with only the start command sent. -/
theorem instream_invalid_size_witness :
    InStream [] 4294967296 ⟨none, none, none, none, ⟨[], none⟩⟩ =
      ((none, some (.invalidSize 4294967296)), CmdInstream) :=
  instream_invalid_size [] 4294967296 ⟨none, none, none, none, ⟨[], none⟩⟩
    rfl (Or.inr (by decide))

/-- C9 counterexample: when the child process fails and the context was
cancelled, FreshClam discards the captured output instead of returning
it. -/
theorem freshclam_cancel_drops_output :
    FreshClam (strBytes "downloading daily.cvd") (some "signal: killed")
        (some "context canceled") =
      (none, some (.wrap "freshclam command cancelled" (.ioError "context canceled")))
    ∧ (none : Option (List Nat)) ≠ some (strBytes "downloading daily.cvd") :=
  ⟨by decide, by decide⟩

/-- C9 (amended): FreshClam returns the captured combined output on
success and on every non-cancelled failure; when the context was
cancelled it reports cancellation distinctly from a generic failure and
returns no output. -/
theorem freshclam_output_paths (output : List Nat) (e ce : String) :
    FreshClam output none none = (some output, none)
    ∧ (FreshClam output (some e) none).1 = some output
    ∧ FreshClam output (some e) (some ce) =
        (none, some (.wrap "freshclam command cancelled" (.ioError ce)))
    ∧ GoErr.wrap "freshclam command cancelled" (.ioError ce) ≠
        GoErr.wrap "freshclam command failed" (.ioError e) := by
  refine ⟨rfl, ?_, rfl, ?_⟩
  · cases hx : (subListOf (strBytes "Database updated") output
        || subListOf (strBytes "up to date") output
        || subListOf (strBytes "Your ClamAV installation is OUTDATED") output) <;>
      simp [FreshClam, hx]
  · intro h
    injection h with h1 h2
    exact absurd h1 (by decide)

/-- C5 counterexample: a daemon reply equal to the literal size-limit
message does not make Shutdown fail: Shutdown discards the reply without
classifying it, even though classification would flag that very reply. -/
theorem shutdown_skips_classification :
    Shutdown ⟨none, ⟨RespErrScanFileSizeLimitExceeded ++ [0], none⟩⟩ = none
    ∧ parseResponse RespErrScanFileSizeLimitExceeded =
        some .errScanFileSizeLimitExceeded :=
  ⟨by decide, by decide⟩

/-- C5 (amended): classification is applied to the trimmed reply for the
ping, version, reload, stats and capability-list commands — a size-limit
reply in any letter case makes each of them fail with an error that
resolves to SizeLimitExceeded — but not for shutdown, which ignores the
reply entirely. -/
theorem classify_after_exchange (s : ByteStream) (resp : List Nat)
    (h : readResponse s = .ok resp)
    (hfold : bytesEqualFold resp RespErrScanFileSizeLimitExceeded = true) :
    Ping ⟨none, s⟩ =
        .error (.wrap "error from clamav" .errScanFileSizeLimitExceeded)
    ∧ Version ⟨none, s⟩ =
        .error (.wrap "error from clamav" .errScanFileSizeLimitExceeded)
    ∧ Stats ⟨none, s⟩ =
        .error (.wrap "error from clamav" .errScanFileSizeLimitExceeded)
    ∧ VersionCommands ⟨none, s⟩ =
        .error (.wrap "error from clamav" .errScanFileSizeLimitExceeded)
    ∧ Reload ⟨none, s⟩ =
        some (.wrap "error from clamav" .errScanFileSizeLimitExceeded)
    ∧ errIs (.wrap "error from clamav" .errScanFileSizeLimitExceeded)
        .errScanFileSizeLimitExceeded = true
    ∧ Shutdown ⟨none, s⟩ = none := by
  have hp : parseResponse resp = some .errScanFileSizeLimitExceeded := by
    simp [parseResponse, hfold]
  refine ⟨?_, ?_, ?_, ?_, ?_, by decide, ?_⟩ <;>
    simp [Ping, Version, Stats, VersionCommands, Reload, Shutdown,
      SendCommand, h, hp]

/-- C5 witness: a mixed-case size-limit reply makes Ping fail with an
error resolving to SizeLimitExceeded. -/
theorem classify_after_exchange_witness :
    Ping ⟨none, ⟨strBytes "instream SIZE limit exceeded. ERROR" ++ [0], none⟩⟩ =
      .error (.wrap "error from clamav" .errScanFileSizeLimitExceeded) :=
  (classify_after_exchange ⟨strBytes "instream SIZE limit exceeded. ERROR" ++ [0], none⟩
    (strBytes "instream SIZE limit exceeded. ERROR") (by decide) (by decide)).1

/-- C6 counterexample: for the capability-list command the reply is read
until the null byte, not until the newline the claim names: on the stream
A newline B null, the code returns A newline B, while reading to the
newline terminator and trimming it would return A. -/
theorem versionCommands_reads_to_null :
    VersionCommands ⟨none, ⟨strBytes "A\nB" ++ [0], none⟩⟩ = .ok (strBytes "A\nB")
    ∧ specReadReply 10 (strBytes "A\nB" ++ [0]) = strBytes "A"
    ∧ strBytes "A\nB" ≠ strBytes "A" :=
  ⟨by decide, by decide, by decide⟩

/-- C6 (amended): for every command, the capability-list command included,
the reply is read from the stream until a null byte or end-of-stream; the
reply is the bytes before the first null byte when one occurs, the null
byte is trimmed, and a stream without a null byte ending in clean EOF is
returned whole. -/
theorem readResponse_null_for_all_commands :
    (∀ (cmd : List Nat) (s : ByteStream),
        (SendCommand cmd ⟨none, s⟩).1 = readResponse s)
    ∧ (∀ (bytes : List Nat) (re : Option String), 0 ∈ bytes →
        readResponse ⟨bytes, re⟩ = .ok (bytes.takeWhile (fun b => b != 0)))
    ∧ (∀ bytes : List Nat, 0 ∉ bytes →
        readResponse ⟨bytes, none⟩ = .ok bytes) := by
  refine ⟨?_, readResponse_of_mem, readResponse_eof⟩
  intro cmd s
  cases hr : readResponse s <;> simp [SendCommand, hr]

/-- C6 witness: a reply stream with bytes after the null byte is cut at
the null byte, with the null byte trimmed. -/
theorem readResponse_null_for_all_commands_witness :
    readResponse ⟨strBytes "OK" ++ [0] ++ strBytes "junk", none⟩ =
      .ok ((strBytes "OK" ++ [0] ++ strBytes "junk").takeWhile (fun b => b != 0)) :=
  readResponse_null_for_all_commands.2.1
    (strBytes "OK" ++ [0] ++ strBytes "junk") none (by decide)

/-- C2: behaviour of InStream when the content copy fails partway. A reply
already sent that classifies to SizeLimitExceeded is surfaced instead of
the raw copy error, and a failing reply read surfaces the raw copy error
wrapped as a network error; but when the daemon closed cleanly without
sending a reply, the err variable has been overwritten by the nil result
of parseResponse, so the returned error wraps a nil error and the raw
copy error is lost, contrary to the claim. -/
theorem instream_copy_error_behaviour :
    (InStream [1] 1 ⟨none, none, some "write: broken pipe", none,
        ⟨RespErrScanFileSizeLimitExceeded ++ [0], none⟩⟩).1 =
      (none, some .errScanFileSizeLimitExceeded)
    ∧ (InStream [1] 1 ⟨none, none, some "write: broken pipe", none,
        ⟨[], none⟩⟩).1 =
      (some [], some (.wrapNil "error while streaming content"))
    ∧ errIs (.wrapNil "error while streaming content")
        (.ioError "write: broken pipe") = false
    ∧ (InStream [1] 1 ⟨none, none, some "write: broken pipe", none,
        ⟨[], some "read: connection reset"⟩⟩).1 =
      (none, some (.wrap "error while streaming content"
        (.ioError "write: broken pipe"))) :=
  ⟨by decide, by decide, by decide, by decide⟩

/-- C3 counterexample: when the copy fails partway and the daemon already
sent a reply that classifies to no error, InStream returns both the reply
and an error even though the classified error is not VirusFound. -/
theorem instream_payload_with_error_no_virus :
    (InStream [1] 1 ⟨none, none, some "connection reset by peer", none,
        ⟨strBytes "stream: OK" ++ [0], none⟩⟩).1 =
      (some (strBytes "stream: OK"), some (.wrapNil "error while streaming content"))
    ∧ errIs (.wrapNil "error while streaming content") .errVirusFound = false :=
  ⟨by decide, by decide⟩

/-- C3 (amended): InStream returns a non-null payload together with an
error exactly when either the exchange completed and the reply classified
to VirusFound, or the copy failed partway and a reply could be read that
classified to no error. Moreover, every other classified error returns
only the error with the reply discarded — on the successful-copy path as
a wrap of the classified error, and on the copy-failure path with a
discarded reply as well — and a successful exchange whose reply
classifies to no error returns the raw reply with no error. -/
theorem instream_payload_error_iff (content : List Nat) (size : Int)
    (cb : ConnBehavior) :
    (((InStream content size cb).1.1.isSome ∧ (InStream content size cb).1.2.isSome)
      ↔ (cb.cmdErr = none ∧ (size > 0 ∧ size ≤ 4294967295) ∧ cb.sizeErr = none ∧
        ((∃ ce resp, cb.copyErr = some ce ∧ readResponse cb.reply = .ok resp ∧
            parseResponse resp = none)
          ∨ (cb.copyErr = none ∧ cb.termErr = none ∧
            ∃ resp, readResponse cb.reply = .ok resp ∧
              parseResponse resp = some .errVirusFound))))
    ∧ (∀ resp perr, cb.cmdErr = none → (size > 0 ∧ size ≤ 4294967295) →
        cb.sizeErr = none → cb.copyErr = none → cb.termErr = none →
        readResponse cb.reply = .ok resp → parseResponse resp = some perr →
        perr ≠ .errVirusFound →
        (InStream content size cb).1 =
          (none, some (.wrap "error from clamav" perr)))
    ∧ (∀ resp perr ce, cb.cmdErr = none → (size > 0 ∧ size ≤ 4294967295) →
        cb.sizeErr = none → cb.copyErr = some ce →
        readResponse cb.reply = .ok resp → parseResponse resp = some perr →
        (InStream content size cb).1.1 = none)
    ∧ (∀ resp, cb.cmdErr = none → (size > 0 ∧ size ≤ 4294967295) →
        cb.sizeErr = none → cb.copyErr = none → cb.termErr = none →
        readResponse cb.reply = .ok resp → parseResponse resp = none →
        (InStream content size cb).1 = (some resp, none)) := by
  obtain ⟨cmdErr, sizeErr, copyErr, termErr, reply⟩ := cb
  refine ⟨?_, ?_, ?_, ?_⟩
  · cases cmdErr with
    | some e => simp [InStream]
    | none =>
      by_cases hsz : size > 0 ∧ size ≤ 4294967295
      · cases sizeErr with
        | some e => simp [InStream, hsz]
        | none =>
          cases copyErr with
          | some ce =>
            cases hr : readResponse reply with
            | error re => simp [InStream, hsz, hr]
            | ok resp =>
              cases hp : parseResponse resp with
              | none => simp [InStream, hsz, hr, hp]
              | some perr =>
                rcases parseResponse_cases resp perr hp with h1 | h1 | h1 <;>
                  subst h1 <;>
                  simp [InStream, hsz, hr, hp, errIs_size_size, errIs_virus_size,
                    errIs_cmd_size]
          | none =>
            cases termErr with
            | some e => simp [InStream, hsz]
            | none =>
              cases hr : readResponse reply with
              | error re => simp [InStream, hsz, hr]
              | ok resp =>
                cases hp : parseResponse resp with
                | none => simp [InStream, hsz, hr, hp]
                | some perr =>
                  rcases parseResponse_cases resp perr hp with h1 | h1 | h1 <;>
                    subst h1 <;>
                    simp [InStream, hsz, hr, hp, errIs_virus_virus,
                      errIs_size_virus, errIs_cmd_virus]
      · simp [InStream, hsz]
  · intro resp perr hc hsz hz hcp ht hr hp hne
    subst hc hz hcp ht
    rcases parseResponse_cases resp perr hp with h1 | h1 | h1 <;> subst h1
    · simp [InStream, hsz, hr, hp, errIs_size_virus]
    · exact absurd rfl hne
    · simp [InStream, hsz, hr, hp, errIs_cmd_virus]
  · intro resp perr ce hc hsz hz hcp hr hp
    subst hc hz hcp
    rcases parseResponse_cases resp perr hp with h1 | h1 | h1 <;> subst h1 <;>
      simp [InStream, hsz, hr, hp, errIs_size_size, errIs_virus_size,
        errIs_cmd_size]
  · intro resp hc hsz hz hcp ht hr hp
    subst hc hz hcp ht
    simp [InStream, hsz, hr, hp]

/-- C3 witness: a clean exchange whose reply is the clean-scan
acknowledgement returns the raw reply with no error. -/
theorem instream_payload_error_iff_witness :
    (InStream (strBytes "data") 4
        ⟨none, none, none, none, ⟨strBytes "stream: OK" ++ [0], none⟩⟩).1 =
      (some (strBytes "stream: OK"), none) :=
  (instream_payload_error_iff (strBytes "data") 4
      ⟨none, none, none, none, ⟨strBytes "stream: OK" ++ [0], none⟩⟩).2.2.2
    (strBytes "stream: OK") rfl (by decide) rfl rfl rfl (by decide) (by decide)
